import Mathlib

/-!
Verification development for the Cygwin AF_UNIX socket emulation
(`winsup/cygwin/fhandler_socket_unix.cc`).

The C++ code is shallowly embedded: machine integers become `Nat`/`Int`
with explicit `% 2^w` where overflow can occur, host (NT) calls become
oracle parameters recording only their observable outcome, and the
per-socket mutable fields become a `Socket` record threaded through each
operation.  Every definition follows the corresponding source function
statement by statement.
-/

namespace CygUnixSock

/-! ## Basic constants (from the source and the Cygwin/newlib headers) -/

/-- Address family of UNIX domain sockets (Cygwin: `AF_UNIX = AF_LOCAL = 1`). -/
def AF_UNIX : Nat := 1

/-- `sizeof (sa_family_t)` — the family tag is a 16-bit integer. -/
def sizeof_sa_family_t : Nat := 2

/-- `sizeof (struct sockaddr_un)` = 2 (family) + 108 (`sun_path`). -/
def sizeof_sockaddr_un : Nat := 110

/-! errno codes, as in newlib `<sys/errno.h>` used by Cygwin. -/

def EINTR : Nat := 4
def EIO : Nat := 5
def EAGAIN : Nat := 11
def EINVAL : Nat := 22
def EPROTO : Nat := 71
def EOPNOTSUPP : Nat := 95
def ENOBUFS : Nat := 105
def EAFNOSUPPORT : Nat := 106
def EADDRINUSE : Nat := 112
def ECONNABORTED : Nat := 113
def ETIMEDOUT : Nat := 116
def EINPROGRESS : Nat := 119
def EALREADY : Nat := 120
def EDESTADDRREQ : Nat := 121
def EISCONN : Nat := 127
def ENOTCONN : Nat := 128
def EFAULT : Nat := 14

/-! ## Packet framing (`af_unix_pkt_hdr_t`, lines 77-125)

The header is `{uint16 pckt_len; uint8 shut_info; uint8 name_len;
uint16 cmsg_len; uint16 data_len}` — 8 bytes, no padding. -/

/-- `sizeof (af_unix_pkt_hdr_t)`: 2 + 1 + 1 + 2 + 2 = 8 bytes. -/
def af_unix_pkt_hdr_size : Nat := 8

/-- The packet header.  Fields hold the natural-number value of the
corresponding fixed-width machine integer. -/
structure af_unix_pkt_hdr_t where
  pckt_len : Nat
  shut_info : Nat
  name_len : Nat
  cmsg_len : Nat
  data_len : Nat
deriving DecidableEq

/-- `af_unix_pkt_hdr_t::init (uint8 s, uint8 n, uint16 c, uint16 d)`
(lines 91-98).  Arguments are truncated to their parameter types at the
call boundary; the `pckt_len` assignment truncates to `uint16`. -/
def af_unix_pkt_hdr_t.init (s n c d : Nat) : af_unix_pkt_hdr_t :=
  let s := s % 256
  let n := n % 256
  let c := c % 65536
  let d := d % 65536
  { shut_info := s
    name_len := n
    cmsg_len := c
    data_len := d
    pckt_len := (af_unix_pkt_hdr_size + n + c + d) % 65536 }

/-- `AF_UNIX_PKT_OFFSETOF_NAME` (line 101): the name region starts right
after the header. -/
def AF_UNIX_PKT_OFFSETOF_NAME (_h : af_unix_pkt_hdr_t) : Nat :=
  af_unix_pkt_hdr_size

/-- `AF_UNIX_PKT_OFFSETOF_CMSG` (line 103). -/
def AF_UNIX_PKT_OFFSETOF_CMSG (h : af_unix_pkt_hdr_t) : Nat :=
  af_unix_pkt_hdr_size + h.name_len

/-- `AF_UNIX_PKT_OFFSETOF_DATA` (line 105). -/
def AF_UNIX_PKT_OFFSETOF_DATA (h : af_unix_pkt_hdr_t) : Nat :=
  af_unix_pkt_hdr_size + h.name_len + h.cmsg_len

/-! ## Address model (`sun_name_t`, lines 160-175) -/

/-- Byte `i` of a byte list (reads as `0` out of range; theorems carry
length hypotheses wherever the access made by the C code is in range). -/
def byteAt (l : List Nat) (i : Nat) : Nat := l.getD i 0

/-- `sun_name_t`: a copied socket address.  `bytes` are the `un_len`
bytes copied from the caller (`bytes.length = un_len` whenever the
source buffer was large enough). -/
structure sun_name_t where
  un_len : Nat
  bytes : List Nat
deriving DecidableEq

/-- The constructor `sun_name_t (const struct sockaddr *name, socklen_t
namelen)` (lines 167-175): clamps a negative length to 0, truncates to
`sizeof (struct sockaddr_un)`, and copies that many bytes. -/
def mk_sun_name (name : List Nat) (namelen : Int) : sun_name_t :=
  let l : Nat := (min namelen (sizeof_sockaddr_un : Int)).toNat
  ⟨l, name.take l⟩

/-- `un.sun_family` of a copied address: the first two bytes,
little-endian. -/
def sun_family (s : sun_name_t) : Nat :=
  byteAt s.bytes 0 + 256 * byteAt s.bytes 1

/-- `un.sun_path[0]`: byte 2 of the address. -/
def sun_path0 (s : sun_name_t) : Nat := byteAt s.bytes 2

/-! ## Autobind name formatting (`autobind`, lines 512-530)

`__small_sprintf (sun->un.sun_path + 1, "%5X", id)` renders `id` in
uppercase hexadecimal, left-padded with spaces (0x20) to a field width
of 5 — `%5X` has no `0` flag, so the pad character is the space. -/

/-- ASCII code of an uppercase hexadecimal digit. -/
def hexChar (d : Nat) : Nat := if d < 10 then 48 + d else 55 + d

/-- The significant hexadecimal digits of `n < 16^5`, most significant
first (at least one digit, as `printf` prints `"0"` for zero). -/
def sigHexDigits (n : Nat) : List Nat :=
  (List.dropWhile (fun d => d == 0)
    [n / 65536 % 16, n / 4096 % 16, n / 256 % 16, n / 16 % 16]) ++ [n % 16]

/-- `__small_sprintf` of `"%5X"` for `n < 16^5`: the significant digits,
left-padded with spaces to width 5. -/
def sprintf5X (n : Nat) : List Nat :=
  let sig := sigHexDigits n
  List.replicate (5 - sig.length) 32 ++ sig.map hexChar

/-- The address produced by one `autobind` round (lines 518-527): the
family bytes are kept, `sun_path[0]` is set to NUL, the 20-bit id
(`get_unique_id () & 0xfffff`) is printed behind it, and `un_len`
becomes `sizeof (sa_family_t) + 1 + 5 = 8`. -/
def autobind_name (sun : sun_name_t) (unique_id : Nat) : sun_name_t :=
  ⟨sizeof_sa_family_t + 1 + 5,
   sun.bytes.take 2 ++ 0 :: sprintf5X (unique_id % 1048576)⟩

/-! ## Socket state

The mutable per-socket fields of `fhandler_socket_unix` that the claims
observe, together with an explicit account of the three SRW locks and
of the heap status of the peer-name object (`set_sun_path` at lines
954-962 deletes the `peer_sun_path` object; `peer_freed` records that
the stored peer name now points to freed memory). -/

inductive binding_state_t | unbound | bind_pending | bound
deriving DecidableEq

inductive conn_state_t
  | unconnected | connect_pending | connected | connect_failed | listener
deriving DecidableEq

inductive sock_type_t | SOCK_STREAM | SOCK_DGRAM
deriving DecidableEq

structure Socket where
  socket_type : sock_type_t
  binding_state : binding_state_t
  connect_state : conn_state_t
  sun_path : Option sun_name_t
  peer_sun_path : Option sun_name_t
  peer_freed : Bool
  so_error : Nat
  io_handle : Option Nat
  backing_file_handle : Option Nat
  bind_ex : Bool
  bind_sh : Nat
  conn_ex : Bool
  conn_sh : Nat
  io_ex : Bool
deriving DecidableEq

/-- `set_sun_path (struct sockaddr_un *un, socklen_t unlen)` (lines
954-962), called with a non-NUL address.  Note that the source deletes
`peer_sun_path` (not the old `sun_path`) before installing the new
bound name; the stored peer pointer is left dangling, recorded here by
`peer_freed`. -/
def set_sun_path (s : Socket) (sun : sun_name_t) : Socket :=
  { s with
    peer_freed := s.peer_freed || s.peer_sun_path.isSome
    sun_path := some sun }

/-- `set_peer_sun_path (struct sockaddr_un *un, socklen_t unlen)`
(lines 964-973): deletes the old peer name and allocates a fresh copy.
With `un = NULL` the source still allocates `new sun_name_t (NULL, 0)`,
whose `un_len` is 0. -/
def set_peer_sun_path (s : Socket) (name : Option (List Nat))
    (unlen : Int) : Socket :=
  match name with
  | some bs => { s with peer_sun_path := some (mk_sun_name bs unlen)
                        peer_freed := false }
  | none => { s with peer_sun_path := some ⟨0, []⟩, peer_freed := false }

/-- Result of a public operation: return value, the errno it set
(0 when it set none), and the post state. -/
structure OpRes where
  ret : Int
  errno : Nat
  st : Socket
deriving DecidableEq

/-! ## getsockname / getpeername (lines 1459-1485)

Both functions copy through a local default-constructed `sun_name_t`,
and both memcpys address the *base* of that struct — `memcpy (&sun,
&get_sun_path ()->un, un_len)` and `memcpy (name, &sun, MIN (*namelen,
sun.un_len))` — where the correct idiom (used by `accept4` at lines
1349-1351) is `&sun.un`.  The embedding therefore models the local
struct memory byte by byte.  Layout (member declaration order of
`sun_name_t`, matching its constructor at lines 160-165): the 4-byte
`__socklen_t un_len` at offset 0, `struct sockaddr_un un` at offset 4
(`sun_family` occupying offsets 4-5), `_nul` behind it.  The default
constructor makes the first six bytes `[2,0,0,0, 1,0]` (`un_len = 2`,
`sun_family = AF_UNIX`, little-endian); every byte beyond offset 6 is
uninitialized stack memory, supplied by the `stack` oracle.  The
copy-in thus overwrites the `un_len` field with the first address
bytes, and both the copy-out length and the value stored into
`*namelen` read that clobbered field as a signed 32-bit value. -/

/-- A 4-byte little-endian load. -/
def le4 (b0 b1 b2 b3 : Nat) : Nat :=
  b0 + 256 * b1 + 65536 * b2 + 16777216 * b3

/-- Reinterpret a 32-bit value as a signed `socklen_t`. -/
def sign32 (v : Nat) : Int :=
  if v < 2147483648 then (v : Int) else (v : Int) - 4294967296

/-- The bytes of the local `sun_name_t` after
`memcpy (&sun, &src->un, src->un_len)`: the first `un_len` bytes are
the stored address bytes, the rest of the default-initialized prefix
`[2,0,0,0,1,0]` survives where not overwritten, and uninitialized
stack bytes follow. -/
def sun_local_mem (sn : sun_name_t) (stack : List Nat) : List Nat :=
  sn.bytes.take sn.un_len ++
    List.drop sn.un_len [2, 0, 0, 0, 1, 0] ++ stack

/-- The clobbered `sun.un_len` after the copy-in: the first four bytes
of the local struct, read as a signed 32-bit `socklen_t`. -/
def garbled_len (sn : sun_name_t) (stack : List Nat) : Int :=
  let mem := sun_local_mem sn stack
  sign32 (le4 (byteAt mem 0) (byteAt mem 1) (byteAt mem 2)
              (byteAt mem 3))

/-- `getsockname (name, namelen)` (lines 1459-1471): result is
`(bytes copied into the caller buffer, value stored into *namelen,
return value)`.  With a bound name, the copy-in clobbers `sun.un_len`
(see above), so `MIN (*namelen, sun.un_len)` bytes are copied from the
struct base and the clobbered value is stored into `*namelen`.  With
no bound name, `sun.un_len = 0` is a plain member store: 0 bytes are
copied and 0 is stored. -/
def getsockname (s : Socket) (namelen : Int) (stack : List Nat) :
    List Nat × Int × Int :=
  match s.sun_path with
  | some sn =>
      ((sun_local_mem sn stack).take
         (min namelen (garbled_len sn stack)).toNat,
       garbled_len sn stack, 0)
  | none => ([], 0, 0)

/-- `getpeername (name, namelen)` (lines 1473-1485), same flow as
`getsockname` — including the same struct-base memcpys — reading
`peer_sun_path`. -/
def getpeername (s : Socket) (namelen : Int) (stack : List Nat) :
    List Nat × Int × Int :=
  match s.peer_sun_path with
  | some sn =>
      ((sun_local_mem sn stack).take
         (min namelen (garbled_len sn stack)).toNat,
       garbled_len sn stack, 0)
  | none => ([], 0, 0)

/-! ## bind and listen (lines 1190-1284)

Host-API (NT) calls are oracles: an `Env` records only the outcome the
host delivered.  `create_pipe`/`create_file_h` are the handles returned
by `NtCreateNamedPipeFile` resp. the backing-object creation (`none` =
failure, in which case the source stores `host_errno` via
`__seterrno_from_nt_status` or the EADDRINUSE mapping); `auto_id` is
the `get_unique_id ()` value of the `autobind` round whose
`create_abstract_link` succeeded (the loop retries until one does), and
`auto_handle` the link handle it returned. -/

structure Env where
  create_pipe : Option Nat
  create_file_h : Option Nat
  host_errno : Nat
  auto_id : Nat
  auto_handle : Nat
deriving DecidableEq

/-- `create_file (const sun_name_t *sun)` (lines 356-368): validity
check, then the abstract-link or reparse-point creation (merged into
one oracle; both report `EADDRINUSE` on collision via `host_errno`).
Result: the handle and, when `none`, the errno set. -/
def create_file (env : Env) (sun : sun_name_t) : Option Nat × Nat :=
  if sun.un_len ≤ sizeof_sa_family_t ∨ (sun.un_len = 3 ∧ sun_path0 sun = 0)
  then (none, EINVAL)
  else match env.create_file_h with
       | some h => (some h, 0)
       | none => (none, env.host_errno)

/-- Second half of `bind` (lines 1228-1242): create the backing object
(`autobind` for an unnamed address — the retry loop always terminates
with a success, whose round the oracle records), store the bound name
via `set_sun_path`, re-announce it to an already-connected peer, and
mark the socket bound.  `send_my_name` only writes to the pipe and
takes/releases `bind_lock` (shared) and `io_lock`, so no tracked field
changes on that call. -/
def bind_finish (s : Socket) (env : Env) (sun : sun_name_t)
    (unnamed : Bool) : OpRes :=
  let backing : Option Nat × Nat × sun_name_t :=
    if unnamed then (some env.auto_handle, 0, autobind_name sun env.auto_id)
    else ((create_file env sun).1, (create_file env sun).2, sun)
  match backing with
  | (none, e, _) =>
      ⟨-1, e, { s with io_handle := none
                       binding_state := binding_state_t.unbound }⟩
  | (some h, _, sun2) =>
      let s := set_sun_path { s with backing_file_handle := some h } sun2
      ⟨0, 0, { s with binding_state := binding_state_t.bound }⟩

/-- `bind (const struct sockaddr *name, int namelen)` (lines
1190-1243). -/
def bind (s : Socket) (env : Env) (name : List Nat) (namelen : Int) :
    OpRes :=
  let sun := mk_sun_name name namelen
  let unnamed := sun.un_len = sizeof_sa_family_t
  if sun_family sun ≠ AF_UNIX then ⟨-1, EINVAL, s⟩
  else
    let s := { s with bind_ex := true }
    if s.binding_state = binding_state_t.bind_pending then
      ⟨-1, EALREADY, { s with bind_ex := false }⟩
    else if s.binding_state = binding_state_t.bound then
      ⟨-1, EINVAL, { s with bind_ex := false }⟩
    else
      let s := { s with binding_state := binding_state_t.bind_pending
                        bind_ex := false }
      -- gen_pipe_name (): no field tracked here changes.
      let dgramPipe : Option (Option Nat) :=
        if s.socket_type = sock_type_t.SOCK_DGRAM
        then some env.create_pipe else none
      match dgramPipe with
      | some none =>
          ⟨-1, env.host_errno,
           { s with binding_state := binding_state_t.unbound }⟩
      | some (some ph) =>
          bind_finish { s with io_handle := some ph } env sun unnamed
      | none => bind_finish s env sun unnamed

/-- Result of `listen`: either a return with the post state, or the
spin on `binding_state () == bind_pending` never exiting (the embedded
semantics is single-threaded, so no other thread can change the
state). -/
inductive ListenRes
  | out (ret : Int) (errno : Nat) (st : Socket)
  | hang (st : Socket)
deriving DecidableEq

/-- `listen (int backlog)` (lines 1246-1284).  Note the early `return
-1` on `create_pipe` failure: it leaves `conn_lock` exclusively held. -/
def listen (s : Socket) (env : Env) : ListenRes :=
  if s.socket_type = sock_type_t.SOCK_DGRAM then .out (-1) EOPNOTSUPP s
  else
    let s := { s with bind_sh := s.bind_sh + 1 }
    if s.binding_state = binding_state_t.bind_pending then .hang s
    else if s.binding_state = binding_state_t.unbound then
      .out (-1) EDESTADDRREQ { s with bind_sh := s.bind_sh - 1 }
    else
      let s := { s with bind_sh := s.bind_sh - 1, conn_ex := true }
      if s.connect_state ≠ conn_state_t.unconnected ∧
         s.connect_state ≠ conn_state_t.connect_failed then
        .out (-1)
          (if s.connect_state = conn_state_t.listener then EADDRINUSE
           else EINVAL)
          { s with conn_ex := false }
      else
        match env.create_pipe with
        | none =>
            -- BUG path: `return -1` without `ReleaseSRWLockExclusive
            -- (&conn_lock)` — conn_ex stays true.
            .out (-1) env.host_errno
              { s with connect_state := conn_state_t.unconnected }
        | some ph =>
            .out 0 0 { s with io_handle := some ph
                              connect_state := conn_state_t.listener
                              conn_ex := false }

/-! ## Peer-name handshake receiver (`recv_peer_name`, lines 602-649)

NTSTATUS values are the signed 32-bit host status codes;
`NT_SUCCESS (s)` is `0 ≤ s` (severity bits clear).  `STATUS_PENDING`
(0x103) is a success code. -/

def STATUS_PENDING : Int := 0x103

/-- `geterrno_from_nt_status`, the host-status → errno table.  The
table lives in `errno.cc`, outside the sources at hand; no claim
depends on which errno a genuine NT failure maps to, only that the
claim paths never reach it, so any fixed non-zero result stands in. -/
def geterrno_from_nt_status (_st : Int) : Nat := EIO

/-- Outcome of `cygwait (evt, &timeout, cw_sig_eintr)`. -/
inductive WaitRes | object0 | timeout | signaled | failed
deriving DecidableEq

/-- Oracle for one `recv_peer_name` run: whether `create_event`
succeeded, the immediate status of `NtReadFile`, the `cygwait` outcome
and the completed `io.Status` when the wait returned `WAIT_OBJECT_0`,
and the packet bytes found in the read buffer. -/
structure REnv where
  event_ok : Bool
  read_status : Int
  wait : WaitRes
  io_status : Int
  pkt_name_len : Nat
  pkt_name : List Nat
deriving DecidableEq

/-- The error code `recv_peer_name` returns.  Beware: the declaration
`int ret = 0` of the function is shadowed inside the `status == STATUS_PENDING` block
by a local `DWORD ret`; the assignments `ret = ECONNABORTED` /
`ret = EINTR` / `ret = EPROTO` there write the inner variable and are
lost when the block exits, and in those cases `status` remains
`STATUS_PENDING`, which satisfies `NT_SUCCESS`.  The translation
reproduces exactly that flow. -/
def recv_ret (env : REnv) : Nat :=
  if ¬env.event_ok then ENOBUFS
  else
    let status :=
      if env.read_status = STATUS_PENDING then
        match env.wait with
        | .object0 => env.io_status
        | _ => env.read_status
      else env.read_status
    if ¬(0 ≤ status) then geterrno_from_nt_status status else 0

/-- `recv_peer_name ()` (lines 602-649): the returned error code and
the state update (`set_peer_sun_path` when the packet carried a
name). -/
def recv_peer_name (s : Socket) (env : REnv) : Nat × Socket :=
  let r := recv_ret env
  if r = 0 ∧ 0 < env.pkt_name_len then
    (r, set_peer_sun_path s (some env.pkt_name) (env.pkt_name_len : Int))
  else (r, s)

/-! ## connect (lines 1380-1457) with `connect_pipe`/`wait_pipe` -/

/-- Outcome of `connect_pipe (pipe_name)` (lines 881-899) as far as the
caller can see: `ok h` — `open_pipe` (directly, or via a blocking
`wait_pipe` join) delivered pipe handle `h` and returned 0 with
`so_error` cleared resp. set to 0 by the waiter; `inprogress` — the
non-blocking path started the waiter and returned -1 with
`EINPROGRESS`; `fail e sets_so` — returned -1 with errno `e`, storing
`e` into `so_error` unless the wait was interrupted by a signal
(`set_errno (EINTR)` without touching `so_error`). -/
inductive CPRes
  | ok (h : Nat)
  | inprogress
  | fail (e : Nat) (sets_so : Bool)
deriving DecidableEq

/-- Oracle for one `connect` run: the `open_file` outcome (peer socket
type on success, errno on failure) and the `connect_pipe` outcome. -/
structure CEnv where
  open_file : Option sock_type_t
  open_errno : Nat
  cp : CPRes
deriving DecidableEq

/-- Result of `connect`: return value, errno, post state, and the
sequence of `connect_state (...)` assignments the run performed. -/
structure CRes where
  ret : Int
  errno : Nat
  st : Socket
  trace : List conn_state_t
deriving DecidableEq

/-- `connect (const struct sockaddr *name, int namelen)` (lines
1380-1457). -/
def connect (s : Socket) (env : CEnv) (name : List Nat) (namelen : Int) :
    CRes :=
  let sun := mk_sun_name name namelen
  let s := { s with conn_ex := true }
  if s.connect_state = conn_state_t.connect_pending then
    ⟨-1, EALREADY, { s with conn_ex := false }, []⟩
  else if s.connect_state = conn_state_t.listener then
    ⟨-1, EADDRINUSE, { s with conn_ex := false }, []⟩
  else if s.connect_state = conn_state_t.connected ∧
          s.socket_type ≠ sock_type_t.SOCK_DGRAM then
    ⟨-1, EISCONN, { s with conn_ex := false }, []⟩
  else
    let s := { s with connect_state := conn_state_t.connect_pending
                      conn_ex := false }
    if sun.un_len ≤ sizeof_sa_family_t then
      ⟨-1, EINVAL, { s with connect_state := conn_state_t.unconnected },
       [conn_state_t.connect_pending, conn_state_t.unconnected]⟩
    else if sun_family sun ≠ AF_UNIX then
      ⟨-1, EAFNOSUPPORT,
       { s with connect_state := conn_state_t.unconnected },
       [conn_state_t.connect_pending, conn_state_t.unconnected]⟩
    else if sun.un_len = 3 ∧ sun_path0 sun = 0 then
      ⟨-1, EINVAL, { s with connect_state := conn_state_t.unconnected },
       [conn_state_t.connect_pending, conn_state_t.unconnected]⟩
    else
      match env.open_file with
      | none =>
          ⟨-1, env.open_errno,
           { s with connect_state := conn_state_t.unconnected },
           [conn_state_t.connect_pending, conn_state_t.unconnected]⟩
      | some peer_type =>
          if peer_type ≠ s.socket_type then
            ⟨-1, EINVAL,
             { s with connect_state := conn_state_t.unconnected },
             [conn_state_t.connect_pending, conn_state_t.unconnected]⟩
          else
            let s := set_peer_sun_path s (some sun.bytes) (sun.un_len : Int)
            if s.socket_type = sock_type_t.SOCK_DGRAM then
              ⟨0, 0, { s with connect_state := conn_state_t.connected },
               [conn_state_t.connect_pending, conn_state_t.connected]⟩
            else
              match env.cp with
              | .ok h =>
                  let s := { s with io_handle := some h, so_error := 0 }
                  ⟨0, 0, { s with connect_state := conn_state_t.connected },
                   [conn_state_t.connect_pending, conn_state_t.connected]⟩
              | .inprogress =>
                  ⟨-1, EINPROGRESS, s, [conn_state_t.connect_pending]⟩
              | .fail e sets_so =>
                  let s := if sets_so then { s with so_error := e } else s
                  if e ≠ EINPROGRESS then
                    ⟨-1, e,
                     { (set_peer_sun_path s none 0) with
                       connect_state := conn_state_t.connect_failed },
                     [conn_state_t.connect_pending,
                      conn_state_t.connect_failed]⟩
                  else ⟨-1, e, s, [conn_state_t.connect_pending]⟩

/-! ## accept4 (lines 1286-1378) -/

/-- The freshly constructed socket `build_fh_dev (dev ())` delivers in
`accept4` before its fields are filled in: the
`fhandler_socket_unix ()` constructor only initializes the peer
credentials; names are NULL, `so_error` 0, states are the initial
ones, locks are free. -/
def new_socket (t : sock_type_t) : Socket :=
  { socket_type := t
    binding_state := binding_state_t.unbound
    connect_state := conn_state_t.unconnected
    sun_path := none
    peer_sun_path := none
    peer_freed := false
    so_error := 0
    io_handle := none
    backing_file_handle := none
    bind_ex := false
    bind_sh := 0
    conn_ex := false
    conn_sh := 0
    io_ex := false }

/-- The one-argument `set_sun_path (sun_name_t *)` wrapper lives in the
header (`fhandler.h`, not among the sources): it forwards to the
two-argument `set_sun_path` with the stored address, or with
`(NULL, 0)` for a NULL argument, whose `new sun_name_t (NULL, 0)` makes
an empty name. -/
def set_sun_path_opt (s : Socket) (o : Option sun_name_t) : Socket :=
  match o with
  | some sn => set_sun_path s sn
  | none => set_sun_path s ⟨0, []⟩

/-- Oracle for one `accept4` run: the outcome of `listen_pipe ()` (and
the errno it set when failing), the handle `create_pipe_instance ()`
returned, the descriptor `cygheap_fdnew` allocated, whether
`build_fh_dev` succeeded, the oracle of the `recv_peer_name` call on the child,
and whether the `__try` block faulted on the caller buffers. -/
structure AEnv where
  listen_ok : Bool
  listen_errno : Nat
  new_inst : Option Nat
  fd : Option Nat
  build_ok : Bool
  renv : REnv
  fault : Bool
deriving DecidableEq

/-- Result of `accept4`: return value, errno, listener post state, the
accepted child socket (`none` when it was deleted or never built), the
handles passed to `disconnect_pipe`, and what was stored through the
caller-supplied `(peer, len)` pair. -/
structure ARes where
  ret : Int
  errno : Nat
  st : Socket
  child : Option Socket
  disconnected : List Nat
  peer_out : Option (List Nat × Int)
deriving DecidableEq

/-- The failure tail of `accept4` (lines 1372-1376): disconnect the
already-accepted client and surface `error`. -/
def accept4_fail (s : Socket) (accepted : Nat) (error : Nat) : ARes :=
  ⟨-1, error, s, none, [accepted], none⟩

/-- The `(peer && (!len || *len < (int) sizeof (sa_family_t)))` part of
the `accept4` argument check. -/
def accept4_len_bad (plen : Option Int) : Bool :=
  match plen with
  | none => true
  | some l => decide (l < (sizeof_sa_family_t : Int))

/-- `accept4 (struct sockaddr *peer, int *len, int flags)` (lines
1286-1378).  `peer_present` models a non-NULL `peer` argument and
`plen` the value behind a non-NULL `len` argument. -/
def accept4 (s : Socket) (env : AEnv) (peer_present : Bool)
    (plen : Option Int) : ARes :=
  if s.socket_type ≠ sock_type_t.SOCK_STREAM then
    ⟨-1, EOPNOTSUPP, s, none, [], none⟩
  else if s.connect_state ≠ conn_state_t.listener ∨
          (peer_present ∧ accept4_len_bad plen) then
    ⟨-1, EINVAL, s, none, [], none⟩
  else if ¬env.listen_ok then ⟨-1, env.listen_errno, s, none, [], none⟩
  else
    let s := { s with io_ex := true }
    let accepted := s.io_handle.getD 0
    match env.new_inst with
    | none => accept4_fail { s with io_ex := false } accepted ENOBUFS
    | some ni =>
        let s := { s with io_handle := some ni, io_ex := false }
        match env.fd with
        | none => accept4_fail s accepted ENOBUFS
        | some fdv =>
            if ¬env.build_ok then accept4_fail s accepted ENOBUFS
            else
              let child := { new_socket s.socket_type with
                             connect_state := conn_state_t.connected
                             binding_state := s.binding_state
                             io_handle := some accepted }
              let child := set_sun_path_opt child s.sun_path
              match recv_peer_name child env.renv with
              | (0, child) =>
                  if env.fault then accept4_fail s accepted EFAULT
                  else
                    let pout : Option (List Nat × Int) :=
                      if peer_present then
                        match child.peer_sun_path, plen with
                        | some sn, some l =>
                            some (sn.bytes.take
                                    (min l (sn.un_len : Int)).toNat,
                                  (sn.un_len : Int))
                        | some sn, none =>
                            some (sn.bytes.take sn.un_len, (sn.un_len : Int))
                        | none, some _ => some ([], 0)
                        | none, none => none
                      else none
                    ⟨(fdv : Int), 0, s, some child, [], pout⟩
              | (e, _) => accept4_fail s accepted e

/-! ## SO_ERROR (getsockopt lines 1741-1749, producer line 1136) -/

/-- The `SO_ERROR` branch of `getsockopt`: `InterlockedExchange
(&so_error, 0)`, store the old value into the caller buffer, return
0.  Result: `(return value, *optval, post state)`. -/
def getsockopt_so_error (s : Socket) : Int × Nat × Socket :=
  (0, s.so_error, { s with so_error := 0 })

/-- A producing event: `InterlockedExchange (&so_error, error)` as in
`wait_pipe_thread` (line 1136) and `wait_pipe`/`connect_pipe`. -/
def store_so_error (s : Socket) (e : Nat) : Socket :=
  { s with so_error := e }

/-! # Theorems -/

/-- Claim C1: for every shutdown value `s`, name length `n`, ancillary
length `c` and data length `d` whose total with the 8-byte header is at
most 65535, `af_unix_pkt_hdr_t::init (s, n, c, d)` sets `shut_info`,
`name_len`, `cmsg_len`, `data_len` to exactly those arguments and
`pckt_len` to `header + n + c + d`, and the name, cmsg and data regions
start at offsets `header`, `header + n` and `header + n + c` — header,
name, cmsg and data are contiguous. -/
theorem pkt_hdr_init_spec (s n c d : Nat) (hs : s < 256) (hn : n < 256)
    (hc : c < 65536) (hd : d < 65536)
    (htot : af_unix_pkt_hdr_size + n + c + d ≤ 65535) :
    (af_unix_pkt_hdr_t.init s n c d).shut_info = s ∧
    (af_unix_pkt_hdr_t.init s n c d).name_len = n ∧
    (af_unix_pkt_hdr_t.init s n c d).cmsg_len = c ∧
    (af_unix_pkt_hdr_t.init s n c d).data_len = d ∧
    (af_unix_pkt_hdr_t.init s n c d).pckt_len =
      af_unix_pkt_hdr_size + n + c + d ∧
    AF_UNIX_PKT_OFFSETOF_NAME (af_unix_pkt_hdr_t.init s n c d) =
      af_unix_pkt_hdr_size ∧
    AF_UNIX_PKT_OFFSETOF_CMSG (af_unix_pkt_hdr_t.init s n c d) =
      af_unix_pkt_hdr_size + n ∧
    AF_UNIX_PKT_OFFSETOF_DATA (af_unix_pkt_hdr_t.init s n c d) =
      af_unix_pkt_hdr_size + n + c := by
  simp only [af_unix_pkt_hdr_t.init, AF_UNIX_PKT_OFFSETOF_NAME,
    AF_UNIX_PKT_OFFSETOF_CMSG, AF_UNIX_PKT_OFFSETOF_DATA,
    af_unix_pkt_hdr_size] at *
  rw [Nat.mod_eq_of_lt hs, Nat.mod_eq_of_lt hn, Nat.mod_eq_of_lt hc,
      Nat.mod_eq_of_lt hd, Nat.mod_eq_of_lt (by omega)]
  simp

/-- Witness for C1 at the concrete packet `(SHUT_RDWR, 10, 0, 100)`. -/
theorem pkt_hdr_init_spec_witness :
    (af_unix_pkt_hdr_t.init 3 10 0 100).pckt_len = 118 ∧
    AF_UNIX_PKT_OFFSETOF_DATA (af_unix_pkt_hdr_t.init 3 10 0 100) = 18 := by
  have h := pkt_hdr_init_spec 3 10 0 100 (by decide) (by decide)
    (by decide) (by decide) (by decide)
  exact ⟨h.2.2.2.2.1, h.2.2.2.2.2.2.2⟩

/-- Claim C8: reading option `SO_ERROR` atomically exchanges `so_error`
with zero and returns the exchanged value; after a single producing
event storing a non-zero error, two consecutive reads return
`(error, 0)`. -/
theorem so_error_read_and_clear (s : Socket) (e : Nat) (he : e ≠ 0) :
    (getsockopt_so_error (store_so_error s e)).1 = 0 ∧
    (getsockopt_so_error (store_so_error s e)).2.1 = e ∧
    (getsockopt_so_error (store_so_error s e)).2.2.so_error = 0 ∧
    (getsockopt_so_error
      (getsockopt_so_error (store_so_error s e)).2.2).2.1 = 0 := by
  simp [getsockopt_so_error, store_so_error]

/-- Witness for C8: error 113 (`ECONNABORTED`) stored on a fresh
stream socket. -/
theorem so_error_read_and_clear_witness :
    (getsockopt_so_error
      (store_so_error (new_socket sock_type_t.SOCK_STREAM) 113)).2.1 =
      113 ∧
    (getsockopt_so_error
      (getsockopt_so_error
        (store_so_error (new_socket sock_type_t.SOCK_STREAM) 113)).2.2).2.1
      = 0 := by
  have h := so_error_read_and_clear (new_socket sock_type_t.SOCK_STREAM)
    113 (by decide)
  exact ⟨h.2.1, h.2.2.2⟩

/-- Claim C10: on a socket that has never been bound, `getsockname`
copies nothing, stores 0 into `*namelen` and returns 0 — it does not
report the family-only length 2; likewise `getpeername` with no peer
name.  (The unbound branch writes `sun.un_len = 0` directly, so the
struct-base memcpy bug of the bound branch is not reached; the result
holds for any uninitialized stack contents.) -/
theorem sockname_unbound_zero (s : Socket) (outlen : Int)
    (stack : List Nat)
    (hs : s.sun_path = none) (hp : s.peer_sun_path = none)
    (h0 : 0 ≤ outlen) :
    getsockname s outlen stack = ([], 0, 0) ∧
    getpeername s outlen stack = ([], 0, 0) := by
  simp [getsockname, getpeername, hs, hp]

/-- Witness for C10: a freshly created stream socket, buffer length
110. -/
theorem sockname_unbound_zero_witness :
    getsockname (new_socket sock_type_t.SOCK_STREAM) 110 [] =
      ([], 0, 0) ∧
    getpeername (new_socket sock_type_t.SOCK_STREAM) 110 [] =
      ([], 0, 0) :=
  sockname_unbound_zero (new_socket sock_type_t.SOCK_STREAM) 110 []
    rfl rfl (by decide)

/-- Claim C2 evaluated on the code: after a successful
`bind` of the `AF_UNIX` pathname address `"/x"` (bytes
`[1, 0, 47, 120]`, length 4), `getsockname` with `*namelen = 110` does
not store the bound length 4.  Both memcpys of `getsockname` address
the base of the local `sun_name_t` (lines 1465 and 1468) instead of
`&sun.un`, so the four address bytes overwrite the `un_len` field and
`*namelen` receives `0x782F0001 = 2016346113`.  The bound name itself
was stored correctly by `bind` (second conjunct), and the copied-out
bytes do begin with the four bound address bytes (final conjunct) —
only the reported length is garbage, refuting the claim that the
caller gets back the bound length. -/
theorem getsockname_garbled_length :
    (bind (new_socket sock_type_t.SOCK_STREAM) ⟨none, some 8, 0, 0, 9⟩
      [1, 0, 47, 120] 4).ret = 0 ∧
    (bind (new_socket sock_type_t.SOCK_STREAM) ⟨none, some 8, 0, 0, 9⟩
      [1, 0, 47, 120] 4).st.sun_path = some ⟨4, [1, 0, 47, 120]⟩ ∧
    (getsockname (bind (new_socket sock_type_t.SOCK_STREAM)
      ⟨none, some 8, 0, 0, 9⟩ [1, 0, 47, 120] 4).st 110
      (List.replicate 104 7)).2.1 = 2016346113 ∧
    ((2016346113 : Int) ≠ 4) ∧
    ((getsockname (bind (new_socket sock_type_t.SOCK_STREAM)
      ⟨none, some 8, 0, 0, 9⟩ [1, 0, 47, 120] 4).st 110
      (List.replicate 104 7)).1).take 4 = [1, 0, 47, 120] := by decide

/-! ## C7: autobind -/

/-- ASCII hexadecimal digit test (`0-9`, `A-F`, `a-f`). -/
def isHexDigitByte (b : Nat) : Bool :=
  (48 ≤ b && b ≤ 57) || (65 ≤ b && b ≤ 70) || (97 ≤ b && b ≤ 102)

/-- `dropWhile` never lengthens a list. -/
theorem dropWhile_length_le (p : Nat → Bool) (l : List Nat) :
    (List.dropWhile p l).length ≤ l.length := by
  induction l with
  | nil => simp
  | cons a t ih =>
      rw [List.dropWhile_cons]
      split
      · exact ih.trans (by simp)
      · simp

/-- `sigHexDigits` yields between 1 and 5 digits. -/
theorem sigHexDigits_length (n : Nat) :
    1 ≤ (sigHexDigits n).length ∧ (sigHexDigits n).length ≤ 5 := by
  have h := dropWhile_length_le (fun d => d == 0)
    [n / 65536 % 16, n / 4096 % 16, n / 256 % 16, n / 16 % 16]
  simp only [List.length_cons, List.length_nil] at h
  simp only [sigHexDigits, List.length_append, List.length_cons,
    List.length_nil]
  omega

/-- The `"%5X"` rendering always occupies exactly 5 characters. -/
theorem sprintf5X_length (n : Nat) : (sprintf5X n).length = 5 := by
  have h := sigHexDigits_length n
  simp only [sprintf5X, List.length_append, List.length_replicate,
    List.length_map]
  omega

/-- Every element of `dropWhile p l` is an element of `l`. -/
theorem mem_of_mem_dropWhile {p : Nat → Bool} {l : List Nat} {b : Nat}
    (h : b ∈ List.dropWhile p l) : b ∈ l := by
  induction l with
  | nil => simpa using h
  | cons a t ih =>
      rw [List.dropWhile_cons] at h
      split at h
      · exact List.mem_cons_of_mem a (ih h)
      · exact h

/-- Every byte of the `"%5X"` rendering is a space (32) or an
uppercase hexadecimal digit (48-57, 65-70): between 32 and 70. -/
theorem sprintf5X_bytes (n : Nat) :
    ∀ b ∈ sprintf5X n, 32 ≤ b ∧ b ≤ 70 := by
  intro b hb
  simp only [sprintf5X] at hb
  rcases List.mem_append.mp hb with h | h
  · have := List.eq_of_mem_replicate h
    omega
  · rcases List.mem_map.mp h with ⟨d, hd, rfl⟩
    have hd15 : d ≤ 15 := by
      simp only [sigHexDigits] at hd
      rcases List.mem_append.mp hd with h1 | h1
      · have h2 := mem_of_mem_dropWhile h1
        simp only [List.mem_cons, List.not_mem_nil, or_false] at h2
        rcases h2 with h3 | h3 | h3 | h3 <;> subst h3 <;> omega
      · simp only [List.mem_cons, List.not_mem_nil, or_false] at h1
        subst h1
        omega
    simp only [hexChar]
    split <;> omega

/-- The first `"%5X"` character in particular. -/
theorem sprintf5X_byte0 (n : Nat) :
    32 ≤ byteAt (sprintf5X n) 0 ∧ byteAt (sprintf5X n) 0 ≤ 70 := by
  have hlen := sprintf5X_length n
  have h0 : 0 < (sprintf5X n).length := by omega
  unfold byteAt
  rw [List.getD_eq_getElem _ _ h0]
  exact sprintf5X_bytes n _ (List.getElem_mem _)

/-- `byteAt` through an append, inside the left part. -/
theorem byteAt_append_left {l l2 : List Nat} {i : Nat}
    (h : i < l.length) : byteAt (l ++ l2) i = byteAt l i :=
  List.getD_append l l2 0 i h

/-- `byteAt` through an append, past the left part. -/
theorem byteAt_append_right {l l2 : List Nat} {i : Nat}
    (h : l.length ≤ i) : byteAt (l ++ l2) i = byteAt l2 (i - l.length) :=
  List.getD_append_right l l2 0 i h

/-- Counterexample to C7 as stated: an autobind that drew the 20-bit id
0 produces the bound name `"\0␣␣␣␣0"` — four spaces and one digit after
the leading NUL, not 5 hexadecimal digits (the `"%5X"` of `__small_sprintf`
pads with spaces, not zeros).  Moreover `getsockname` does not report
the length-8 name: through the struct-base memcpy bug of lines
1465/1468 it stores `0x20000001 = 536870913` (the first four name
bytes `[1,0,0,32]` read as a `socklen_t`) into `*namelen`, not 8. -/
theorem autobind_spaces_not_hex :
    (bind (new_socket sock_type_t.SOCK_STREAM) ⟨some 7, none, 0, 0, 9⟩
      [1, 0] 2).ret = 0 ∧
    (bind (new_socket sock_type_t.SOCK_STREAM) ⟨some 7, none, 0, 0, 9⟩
      [1, 0] 2).st.sun_path =
      some ⟨8, [1, 0, 0, 32, 32, 32, 32, 48]⟩ ∧
    isHexDigitByte 32 = false ∧
    (getsockname (bind (new_socket sock_type_t.SOCK_STREAM)
      ⟨some 7, none, 0, 0, 9⟩ [1, 0] 2).st 110
      (List.replicate 104 7)).2.1 = 536870913 ∧
    ((536870913 : Int) ≠ 8) := by decide

/-- Claim C7 as amended: a successful autobind on an unnamed `AF_UNIX`
address produces a bound name of total length 8 whose first path byte
is NUL, followed by exactly 5 characters — the 20-bit id rendered in
uppercase hexadecimal, left-padded with spaces to width 5.
`getsockname` however does not report that length-8 abstract name: it
does copy out the 8 name bytes first, but — through the struct-base
memcpy bug of lines 1465/1468 (see C2) — the value stored into
`*namelen` is the first four name bytes read as a `socklen_t`, namely
`1 + 2^24 · c` where `c` is the first rendered character, never 8. -/
theorem autobind_spec (s : Socket) (env : Env) (name : List Nat)
    (hub : s.binding_state = binding_state_t.unbound)
    (hfam : sun_family (mk_sun_name name 2) = AF_UNIX)
    (hlen : 2 ≤ name.length)
    (hdg : s.socket_type = sock_type_t.SOCK_DGRAM →
           env.create_pipe.isSome) :
    (bind s env name 2).ret = 0 ∧
    (bind s env name 2).st.sun_path =
      some ⟨8, name.take 2 ++ 0 :: sprintf5X (env.auto_id % 1048576)⟩ ∧
    (name.take 2 ++ 0 :: sprintf5X (env.auto_id % 1048576)).length = 8 ∧
    byteAt (name.take 2 ++ 0 :: sprintf5X (env.auto_id % 1048576)) 2
      = 0 ∧
    (sprintf5X (env.auto_id % 1048576)).length = 5 ∧
    (∀ stack : List Nat,
      (getsockname (bind s env name 2).st 110 stack).2.1 =
        ((1 + 16777216 * byteAt (sprintf5X (env.auto_id % 1048576)) 0 :
          Nat) : Int) ∧
      ((getsockname (bind s env name 2).st 110 stack).1).take 8 =
        name.take 2 ++ 0 :: sprintf5X (env.auto_id % 1048576)) ∧
    ((1 + 16777216 * byteAt (sprintf5X (env.auto_id % 1048576)) 0 :
      Nat) : Int) ≠ 8 := by
  have hsp5 := sprintf5X_length (env.auto_id % 1048576)
  have hc := sprintf5X_byte0 (env.auto_id % 1048576)
  have htk : (name.take 2).length = 2 := by
    rw [List.length_take]
    omega
  have hsun : mk_sun_name name 2 = ⟨2, name.take 2⟩ := by
    simp [mk_sun_name, sizeof_sockaddr_un]
  rw [hsun] at hfam
  have hfam2 : byteAt (name.take 2) 0 = 1 ∧
      byteAt (name.take 2) 1 = 0 := by
    simp only [sun_family, AF_UNIX] at hfam
    omega
  have hab : autobind_name (⟨2, name.take 2⟩ : sun_name_t) env.auto_id =
      ⟨8, name.take 2 ++ 0 :: sprintf5X (env.auto_id % 1048576)⟩ := by
    simp [autobind_name, sizeof_sa_family_t, List.take_take,
      List.take_of_length_le htk.le]
  have hlen8 : (name.take 2 ++ 0 ::
      sprintf5X (env.auto_id % 1048576)).length = 8 := by
    simp only [List.length_append, List.length_cons, htk, hsp5]
  have hb2 : byteAt (name.take 2 ++ 0 ::
      sprintf5X (env.auto_id % 1048576)) 2 = 0 := by
    unfold byteAt
    rw [List.getD_append_right _ _ _ _ (by omega), htk]
    simp
  have hun : decide ((⟨2, name.take 2⟩ : sun_name_t).un_len =
      sizeof_sa_family_t) = true := by
    simp [sizeof_sa_family_t]
  have hkey : (bind s env name 2).ret = 0 ∧
      (bind s env name 2).st.sun_path =
        some ⟨8, name.take 2 ++ 0 :: sprintf5X (env.auto_id % 1048576)⟩ := by
    cases hty : s.socket_type with
    | SOCK_STREAM =>
        simp [bind, bind_finish, set_sun_path, hsun, hfam, hub, hty,
          hun, hab]
    | SOCK_DGRAM =>
        obtain ⟨ph, hph⟩ := Option.isSome_iff_exists.mp (hdg hty)
        simp [bind, bind_finish, set_sun_path, hsun, hfam, hub, hty,
          hun, hab, hph]
  have hmem : ∀ stack : List Nat,
      sun_local_mem
        ⟨8, name.take 2 ++ 0 :: sprintf5X (env.auto_id % 1048576)⟩
        stack =
      (name.take 2 ++ 0 :: sprintf5X (env.auto_id % 1048576)) ++
        stack := by
    intro stack
    simp only [sun_local_mem]
    rw [List.take_of_length_le hlen8.le]
    norm_num
  have hbytes : ∀ stack : List Nat,
      byteAt ((name.take 2 ++ 0 ::
        sprintf5X (env.auto_id % 1048576)) ++ stack) 0 = 1 ∧
      byteAt ((name.take 2 ++ 0 ::
        sprintf5X (env.auto_id % 1048576)) ++ stack) 1 = 0 ∧
      byteAt ((name.take 2 ++ 0 ::
        sprintf5X (env.auto_id % 1048576)) ++ stack) 2 = 0 ∧
      byteAt ((name.take 2 ++ 0 ::
        sprintf5X (env.auto_id % 1048576)) ++ stack) 3 =
        byteAt (sprintf5X (env.auto_id % 1048576)) 0 := by
    intro stack
    refine ⟨?_, ?_, ?_, ?_⟩
    · rw [byteAt_append_left (by omega), byteAt_append_left (by omega)]
      exact hfam2.1
    · rw [byteAt_append_left (by omega), byteAt_append_left (by omega)]
      exact hfam2.2
    · rw [byteAt_append_left (by omega)]
      exact hb2
    · rw [byteAt_append_left (by omega), byteAt_append_right (by omega),
        htk]
      rfl
  have hglen : ∀ stack : List Nat,
      garbled_len
        ⟨8, name.take 2 ++ 0 :: sprintf5X (env.auto_id % 1048576)⟩
        stack =
      ((1 + 16777216 * byteAt (sprintf5X (env.auto_id % 1048576)) 0 :
        Nat) : Int) := by
    intro stack
    obtain ⟨e0, e1, e2, e3⟩ := hbytes stack
    simp only [garbled_len, hmem stack, e0, e1, e2, e3, le4]
    unfold sign32
    rw [if_pos (by omega)]
  have hK : ∀ stack : List Nat,
      (min (110 : Int)
        (garbled_len
          ⟨8, name.take 2 ++ 0 :: sprintf5X (env.auto_id % 1048576)⟩
          stack)).toNat = 110 := by
    intro stack
    rw [hglen stack]
    have h110 : (110 : Int) ≤
        ((1 + 16777216 * byteAt (sprintf5X (env.auto_id % 1048576)) 0 :
          Nat) : Int) := by
      have : 110 ≤
          1 + 16777216 * byteAt (sprintf5X (env.auto_id % 1048576)) 0 := by
        omega
      exact_mod_cast this
    omega
  refine ⟨hkey.1, hkey.2, hlen8, hb2, hsp5, ?_, ?_⟩
  · intro stack
    constructor
    · simp only [getsockname, hkey.2]
      exact hglen stack
    · simp only [getsockname, hkey.2, hK stack, hmem stack]
      rw [List.take_take]
      have hmin : min 8 110 = 8 := by decide
      rw [hmin, ← hlen8, List.take_left]
  · intro hcontra
    have h8 : (1 + 16777216 *
        byteAt (sprintf5X (env.auto_id % 1048576)) 0 : Nat) = 8 := by
      exact_mod_cast hcontra
    omega

/-- Witness for the amended C7: autobind with id `0xA7` on a fresh
stream socket yields the bound name `"\0␣␣␣A7"`, and `getsockname`
stores `1 + 2^24 · 32 = 536870913` — not 8 — into `*namelen`. -/
theorem autobind_spec_witness :
    (bind (new_socket sock_type_t.SOCK_STREAM) ⟨some 7, none, 0, 167, 9⟩
      [1, 0] 2).ret = 0 ∧
    (bind (new_socket sock_type_t.SOCK_STREAM) ⟨some 7, none, 0, 167, 9⟩
      [1, 0] 2).st.sun_path =
      some ⟨8, [1, 0, 0, 32, 32, 32, 65, 55]⟩ ∧
    (getsockname (bind (new_socket sock_type_t.SOCK_STREAM)
      ⟨some 7, none, 0, 167, 9⟩ [1, 0] 2).st 110 []).2.1 =
      536870913 := by
  have h := autobind_spec (new_socket sock_type_t.SOCK_STREAM)
    ⟨some 7, none, 0, 167, 9⟩ [1, 0] rfl (by decide) (by decide)
    (fun hc => by simp)
  exact ⟨h.1, h.2.1.trans (by decide),
    ((h.2.2.2.2.2.1 []).1).trans (by decide)⟩

/-! ## C3: connect -/

/-- The three connection-state gates at the top of `connect` (lines
1389-1407) all pass. -/
def connect_precheck_ok (s : Socket) : Prop :=
  s.connect_state ≠ conn_state_t.connect_pending ∧
  s.connect_state ≠ conn_state_t.listener ∧
  ¬(s.connect_state = conn_state_t.connected ∧
    s.socket_type ≠ sock_type_t.SOCK_DGRAM)

/-- The name-validity gates of `connect` (lines 1410-1428) all pass. -/
def connect_name_ok (sn : sun_name_t) : Prop :=
  sizeof_sa_family_t < sn.un_len ∧ sun_family sn = AF_UNIX ∧
  ¬(sn.un_len = 3 ∧ sun_path0 sn = 0)

/-- Counterexample to C3 as stated: for the two-byte address
`[2, 0]` — family 2, not `AF_UNIX` — on an unconnected stream socket,
`connect` returns `EINVAL` (the length gate `un_len <= sizeof
(sa_family_t)` fires first), not `EAFNOSUPPORT` as the claim requires
for every non-`AF_UNIX` family. -/
theorem connect_short_foreign_family :
    (connect (new_socket sock_type_t.SOCK_STREAM)
      ⟨none, 2, CPRes.inprogress⟩ [2, 0] 2).ret = -1 ∧
    (connect (new_socket sock_type_t.SOCK_STREAM)
      ⟨none, 2, CPRes.inprogress⟩ [2, 0] 2).errno = EINVAL ∧
    sun_family (mk_sun_name [2, 0] 2) ≠ AF_UNIX ∧
    EINVAL ≠ EAFNOSUPPORT := by decide

/-- Claim C3 as amended: `connect` returns -1 with `EALREADY` when
`connect_state` is `connect_pending`, with `EADDRINUSE` when it is
`listener`, with `EISCONN` when a stream socket is already connected,
and with `EAFNOSUPPORT` when those gates pass, the address is longer
than the family tag, and the family is not `AF_UNIX`; when `connect`
proceeds past all its validity checks (`connect_name_ok` and a
type-matching peer found by `open_file`), `connect_state` passes
through `connect_pending` (the first state assignment) and at return is
`connected` (with result 0), or `connect_failed`, or still
`connect_pending` with errno `EINPROGRESS`. -/
theorem connect_state_machine (s : Socket) (env : CEnv)
    (name : List Nat) (namelen : Int) :
    (s.connect_state = conn_state_t.connect_pending →
      (connect s env name namelen).ret = -1 ∧
      (connect s env name namelen).errno = EALREADY ∧
      (connect s env name namelen).st.connect_state = s.connect_state) ∧
    (s.connect_state = conn_state_t.listener →
      (connect s env name namelen).ret = -1 ∧
      (connect s env name namelen).errno = EADDRINUSE ∧
      (connect s env name namelen).st.connect_state = s.connect_state) ∧
    (s.connect_state = conn_state_t.connected →
      s.socket_type = sock_type_t.SOCK_STREAM →
      (connect s env name namelen).ret = -1 ∧
      (connect s env name namelen).errno = EISCONN ∧
      (connect s env name namelen).st.connect_state = s.connect_state) ∧
    (connect_precheck_ok s →
      sizeof_sa_family_t < (mk_sun_name name namelen).un_len →
      sun_family (mk_sun_name name namelen) ≠ AF_UNIX →
      (connect s env name namelen).ret = -1 ∧
      (connect s env name namelen).errno = EAFNOSUPPORT) ∧
    (connect_precheck_ok s →
      connect_name_ok (mk_sun_name name namelen) →
      env.open_file = some s.socket_type →
      (connect s env name namelen).trace.head? =
        some conn_state_t.connect_pending ∧
      (((connect s env name namelen).st.connect_state =
          conn_state_t.connected ∧
        (connect s env name namelen).ret = 0) ∨
       (connect s env name namelen).st.connect_state =
          conn_state_t.connect_failed ∨
       ((connect s env name namelen).st.connect_state =
          conn_state_t.connect_pending ∧
        (connect s env name namelen).errno = EINPROGRESS))) := by
  refine ⟨?_, ?_, ?_, ?_, ?_⟩
  · intro h
    simp [connect, h]
  · intro h
    have h1 : s.connect_state ≠ conn_state_t.connect_pending := by
      rw [h]; intro hc; cases hc
    simp [connect, h, h1]
  · intro h hty
    have h1 : s.connect_state ≠ conn_state_t.connect_pending := by
      rw [h]; intro hc; cases hc
    have h2 : s.connect_state ≠ conn_state_t.listener := by
      rw [h]; intro hc; cases hc
    have h3 : s.socket_type ≠ sock_type_t.SOCK_DGRAM := by
      rw [hty]; intro hc; cases hc
    simp [connect, h, h1, h2, h3]
  · rintro ⟨h1, h2, h3⟩ hlen hfam
    have hnle : ¬((mk_sun_name name namelen).un_len ≤
        sizeof_sa_family_t) := by omega
    simp [connect, h1, h2, h3, hnle, hfam]
  · rintro ⟨h1, h2, h3⟩ ⟨hlen, hfam, habs⟩ hopen
    have hnle : ¬((mk_sun_name name namelen).un_len ≤
        sizeof_sa_family_t) := by omega
    cases hty : s.socket_type with
    | SOCK_DGRAM =>
        simp [connect, h1, h2, h3, hnle, hfam, habs, hopen, hty,
          set_peer_sun_path]
    | SOCK_STREAM =>
        have hnc : s.connect_state ≠ conn_state_t.connected := by
          intro hc
          exact h3 ⟨hc, by rw [hty]; intro hx; cases hx⟩
        cases hcp : env.cp with
        | ok h =>
            simp [connect, h1, h2, h3, hnc, hnle, hfam, habs, hopen,
              hty, hcp, set_peer_sun_path]
        | inprogress =>
            simp [connect, h1, h2, h3, hnc, hnle, hfam, habs, hopen,
              hty, hcp, set_peer_sun_path]
        | fail e b =>
            by_cases he : e = EINPROGRESS
            · simp [connect, h1, h2, h3, hnc, hnle, hfam, habs, hopen,
                hty, hcp, he, set_peer_sun_path]
              cases b <;> simp
            · simp [connect, h1, h2, h3, hnc, hnle, hfam, habs, hopen,
                hty, hcp, he, set_peer_sun_path]

/-- Witness for the amended C3: the `EALREADY`, `EAFNOSUPPORT` and
progression clauses exercised on concrete sockets (a pending connect;
an unconnected stream socket with an `AF_INET`-style address; a
datagram connect that completes). -/
theorem connect_state_machine_witness :
    (connect { new_socket sock_type_t.SOCK_STREAM with
               connect_state := conn_state_t.connect_pending }
      ⟨none, 2, CPRes.inprogress⟩ [1, 0, 120] 3).errno = EALREADY ∧
    (connect (new_socket sock_type_t.SOCK_STREAM)
      ⟨none, 2, CPRes.inprogress⟩ [2, 0, 120] 3).errno = EAFNOSUPPORT ∧
    (connect (new_socket sock_type_t.SOCK_DGRAM)
      ⟨some sock_type_t.SOCK_DGRAM, 0, CPRes.inprogress⟩
      [1, 0, 120] 3).trace.head? = some conn_state_t.connect_pending := by
  refine ⟨((connect_state_machine _ _ _ _).1 rfl).2.1, ?_, ?_⟩
  · exact (((connect_state_machine (new_socket sock_type_t.SOCK_STREAM)
      ⟨none, 2, CPRes.inprogress⟩ [2, 0, 120] 3).2.2.2.1
      (by refine ⟨by decide, by decide, ?_⟩; rintro ⟨hc, -⟩; cases hc)
      (by decide) (by decide))).2
  · exact ((connect_state_machine (new_socket sock_type_t.SOCK_DGRAM)
      ⟨some sock_type_t.SOCK_DGRAM, 0, CPRes.inprogress⟩ [1, 0, 120]
      3).2.2.2.2
      (by refine ⟨by decide, by decide, ?_⟩; rintro ⟨hc, -⟩; cases hc)
      (by refine ⟨by decide, by decide, ?_⟩; decide) rfl).1

/-! ## C4: accept4 -/

/-- The error code `recv_peer_name` reports does not depend on the
socket it is called on. -/
theorem recv_peer_name_fst (s : Socket) (env : REnv) :
    (recv_peer_name s env).1 = recv_ret env := by
  simp only [recv_peer_name]
  split <;> rfl

/-- Claim C4: in `accept4`, once a client connection has been accepted
on the pipe handle of the listener, a failing `create_pipe_instance` makes
the call disconnect the already-accepted client and return -1 with
`ENOBUFS`; on the success path the old handle is handed to the newly
constructed child socket, whose `connect_state` is `connected`, and the
listener receives the new instance. -/
theorem accept4_handoff (s : Socket) (env : AEnv) (peer_present : Bool)
    (plen : Option Int) (H : Nat)
    (hty : s.socket_type = sock_type_t.SOCK_STREAM)
    (hconn : s.connect_state = conn_state_t.listener)
    (hargs : ¬(peer_present = true ∧ accept4_len_bad plen = true))
    (hio : s.io_handle = some H)
    (hlp : env.listen_ok = true) :
    (env.new_inst = none →
      (accept4 s env peer_present plen).ret = -1 ∧
      (accept4 s env peer_present plen).errno = ENOBUFS ∧
      (accept4 s env peer_present plen).disconnected = [H]) ∧
    (∀ N fdv, env.new_inst = some N → env.fd = some fdv →
      env.build_ok = true → recv_ret env.renv = 0 → env.fault = false →
      (accept4 s env peer_present plen).ret = (fdv : Int) ∧
      (accept4 s env peer_present plen).st.io_handle = some N ∧
      (accept4 s env peer_present plen).disconnected = [] ∧
      ∃ c, (accept4 s env peer_present plen).child = some c ∧
        c.io_handle = some H ∧
        c.connect_state = conn_state_t.connected) := by
  have hne : s.socket_type ≠ sock_type_t.SOCK_STREAM → False := by
    intro hc; exact hc hty
  constructor
  · intro hni
    simp [accept4, accept4_fail, hty, hconn, hio, hlp, hargs, hni]
  · intro N fdv hN hfd hb hrr hf
    by_cases hpk : 0 < env.renv.pkt_name_len <;>
      rcases hsp : s.sun_path with _ | sn <;>
        simp [accept4, accept4_fail, recv_peer_name, set_peer_sun_path,
          set_sun_path_opt, set_sun_path, new_socket, hty, hconn, hio,
          hlp, hargs, hN, hfd, hb, hrr, hf, hpk, hsp]

/-- Witness for C4: a listening stream socket with pipe handle 5; once
with `create_pipe_instance` failing, once with everything succeeding
(new instance 6, descriptor 3, a handshake packet carrying the peer
name `"/x"`). -/
theorem accept4_handoff_witness :
    (accept4 { new_socket sock_type_t.SOCK_STREAM with
               connect_state := conn_state_t.listener
               binding_state := binding_state_t.bound
               sun_path := some ⟨4, [1, 0, 47, 115]⟩
               io_handle := some 5 }
      ⟨true, 0, none, some 3, true,
       ⟨true, 0, WaitRes.object0, 0, 4, [1, 0, 47, 120]⟩, false⟩
      false none).errno = ENOBUFS ∧
    (accept4 { new_socket sock_type_t.SOCK_STREAM with
               connect_state := conn_state_t.listener
               binding_state := binding_state_t.bound
               sun_path := some ⟨4, [1, 0, 47, 115]⟩
               io_handle := some 5 }
      ⟨true, 0, some 6, some 3, true,
       ⟨true, 0, WaitRes.object0, 0, 4, [1, 0, 47, 120]⟩, false⟩
      false none).st.io_handle = some 6 := by
  constructor
  · exact ((accept4_handoff _
      ⟨true, 0, none, some 3, true,
       ⟨true, 0, WaitRes.object0, 0, 4, [1, 0, 47, 120]⟩, false⟩
      false none 5 rfl rfl (by simp) rfl rfl).1 rfl).2.1
  · exact ((accept4_handoff _
      ⟨true, 0, some 6, some 3, true,
       ⟨true, 0, WaitRes.object0, 0, 4, [1, 0, 47, 120]⟩, false⟩
      false none 5 rfl rfl (by simp) rfl rfl).2 6 3 rfl rfl rfl
      (by decide) rfl).2.1

/-! ## C5: recv_peer_name loses its timeout and signal errors -/

/-- Claim C5 evaluated on the code: when the 20-second `cygwait`
returns `WAIT_TIMEOUT` (or `WAIT_SIGNALED`), `recv_peer_name` returns
0 — success — instead of the claimed `ECONNABORTED` (resp. `EINTR`),
because the assignments happen to a shadowing inner `DWORD ret` and
`status` stays at the success code `STATUS_PENDING`.  The third part
shows the successful-read path does store the received name as the
peer name, as claimed. -/
theorem recv_peer_name_shadowed_ret :
    recv_ret ⟨true, STATUS_PENDING, WaitRes.timeout, 0, 0, []⟩ = 0 ∧
    ECONNABORTED ≠ 0 ∧
    recv_ret ⟨true, STATUS_PENDING, WaitRes.signaled, 0, 0, []⟩ = 0 ∧
    EINTR ≠ 0 ∧
    recv_peer_name (new_socket sock_type_t.SOCK_STREAM)
      ⟨true, STATUS_PENDING, WaitRes.object0, 0, 4, [1, 0, 47, 120]⟩ =
      (0, { new_socket sock_type_t.SOCK_STREAM with
            peer_sun_path := some ⟨4, [1, 0, 47, 120]⟩ }) := by decide

/-! ## C6: bind destroys the peer name -/

/-- Claim C6 evaluated on the code: a successful `bind` on a socket
that holds a peer name executes `delete peer_sun_path` inside
`set_sun_path` (lines 957-958), so the peer-name object is freed — the
stored peer pointer now dangles at the old bytes — contradicting the
claim that `bind` leaves the peer name unchanged. -/
theorem bind_frees_peer_name :
    (bind { new_socket sock_type_t.SOCK_STREAM with
            connect_state := conn_state_t.connected
            peer_sun_path := some ⟨4, [1, 0, 47, 115]⟩ }
      ⟨none, some 8, 0, 0, 9⟩ [1, 0, 47, 120] 4).ret = 0 ∧
    ({ new_socket sock_type_t.SOCK_STREAM with
       connect_state := conn_state_t.connected
       peer_sun_path := some ⟨4, [1, 0, 47, 115]⟩ } : Socket).peer_freed
      = false ∧
    (bind { new_socket sock_type_t.SOCK_STREAM with
            connect_state := conn_state_t.connected
            peer_sun_path := some ⟨4, [1, 0, 47, 115]⟩ }
      ⟨none, some 8, 0, 0, 9⟩ [1, 0, 47, 120] 4).st.peer_freed =
      true := by decide

/-! ## C9: listen leaks conn_lock on the create_pipe failure path -/

/-- Return value of a `listen` run that terminated. -/
def ListenRes.retval : ListenRes → Int
  | .out r _ _ => r
  | .hang _ => 0

/-- Post state of a `listen` run. -/
def ListenRes.state : ListenRes → Socket
  | .out _ _ st => st
  | .hang st => st

/-- Claim C9 evaluated on the code: `listen` on a bound, unconnected
stream socket whose `create_pipe` fails returns -1 while `conn_lock`
is still held exclusively (the `if (!pipe) { connect_state (unbound);
return -1; }` path at lines 1273-1278 skips
`ReleaseSRWLockExclusive (&conn_lock)`), so not every public operation
releases the locks it acquired on every return path. -/
theorem listen_leaks_conn_lock :
    ({ new_socket sock_type_t.SOCK_STREAM with
       binding_state := binding_state_t.bound
       sun_path := some ⟨4, [1, 0, 47, 120]⟩ } : Socket).conn_ex =
      false ∧
    (listen { new_socket sock_type_t.SOCK_STREAM with
              binding_state := binding_state_t.bound
              sun_path := some ⟨4, [1, 0, 47, 120]⟩ }
      ⟨none, none, 105, 0, 9⟩).retval = -1 ∧
    (listen { new_socket sock_type_t.SOCK_STREAM with
              binding_state := binding_state_t.bound
              sun_path := some ⟨4, [1, 0, 47, 120]⟩ }
      ⟨none, none, 105, 0, 9⟩).state.conn_ex = true := by decide

end CygUnixSock
